import Mathlib

/-!
Verification development for the budget-planner web application (`app.py`).

The application is a Flask app over SQLite.  We shallowly embed the data
model and the request handlers:

* SQLite tables become Lean lists of row structures held in a `State`;
  the `UNIQUE` constraints of the schema are reflected by modelling the
  `INSERT ... ON CONFLICT DO UPDATE` idiom as remove-matching-rows-then-append.
* JSON request values are dynamically typed in Python; where a claim depends
  on that (income validation, budget upsert) the input is a `Value`
  (number, string or null).  Monetary amounts are modelled as rationals.
* `datetime` timestamps are modelled at day granularity by a `Date`
  (year, month, day); SQL string comparison of `YYYY-MM-DD ...` timestamps
  corresponds to comparison of `dateKey`, and `strftime` month keys
  `YYYY-MM` to `monthKey`.
* HTTP handlers become functions `... → Except ApiError State` (mutations)
  or `... → Except ApiError Output` (reads); an `Except.error` result means
  the request was rejected and the stored state is unchanged.
* Display-only string formatting (currency symbols, `toFixed` rounding,
  message interpolation) is elided: notification messages are modelled
  structurally by the category and the overspent amount they interpolate.
-/

namespace BudgetApp

/-- A JSON value as the handlers see it: `request.json.get(...)` yields a
number, a string, or `None` (also used for an absent field). -/
inductive Value where
  | num (q : ℚ)
  | str (s : String)
  | null
deriving DecidableEq

/-- SQL equality on stored/compared values: comparisons involving `NULL`
are never true (`x = NULL` is not satisfied in a `WHERE` clause). -/
def sqlEqB : Value → Value → Bool
  | Value.null, _ => false
  | _, Value.null => false
  | Value.num a, Value.num b => a = b
  | Value.str a, Value.str b => a = b
  | _, _ => false

/-- A calendar date (`datetime` at day granularity). -/
structure Date where
  year : Nat
  month : Nat
  day : Nat
deriving DecidableEq

/-- Gregorian leap year test. -/
def isLeap (y : Nat) : Bool := (y % 4 = 0 && y % 100 != 0) || y % 400 = 0

/-- Number of days of month `m` of year `y`. -/
def daysInMonth (y m : Nat) : Nat :=
  if m = 2 then (if isLeap y then 29 else 28)
  else if m = 4 || m = 6 || m = 9 || m = 11 then 30
  else 31

/-- The day before a date (used to evaluate `datetime - timedelta(days=n)`). -/
def prevDay (d : Date) : Date :=
  if 1 < d.day then ⟨d.year, d.month, d.day - 1⟩
  else if 1 < d.month then ⟨d.year, d.month - 1, daysInMonth d.year (d.month - 1)⟩
  else ⟨d.year - 1, 12, 31⟩

/-- `subDays d n` is `d - timedelta(days=n)`. -/
def subDays (d : Date) : Nat → Date
  | 0 => d
  | n + 1 => prevDay (subDays d n)

/-- Injective monotone encoding of a (valid) date; comparing `dateKey`s
models SQL string comparison of `YYYY-MM-DD ...` timestamps. -/
def dateKey (d : Date) : Nat := d.year * 372 + d.month * 31 + d.day

/-- Month key of a date: models the `YYYY-MM` string `strftime('%Y-%m', ·)`,
whose lexicographic order is the order of this encoding. -/
def monthKey (d : Date) : Nat := d.year * 12 + d.month

/-- First day of the month of `d` (`datetime.now().replace(day=1, ...)`,
and also `strftime('%Y-%m-01')`). -/
def monthStart (d : Date) : Date := ⟨d.year, d.month, 1⟩

/-- A date with a real month and a real day of that month. -/
def Date.Valid (d : Date) : Prop :=
  1 ≤ d.month ∧ d.month ≤ 12 ∧ 1 ≤ d.day ∧ d.day ≤ daysInMonth d.year d.month

instance (d : Date) : Decidable d.Valid := by
  unfold Date.Valid; infer_instance

/-- Row of the `users` table (no claim exercises registration/login,
the table is carried for schema completeness). -/
structure UserRow where
  id : Nat
  username : String
  password_hash : String
deriving DecidableEq

/-- Row of the `income` table: `UNIQUE(user_id, month_year)`. -/
structure IncomeRow where
  user_id : Nat
  amount : ℚ
  month_year : Nat
  created_at : Date
deriving DecidableEq

/-- Row of the `budgets` table: `UNIQUE(user_id, category, month_year)`.
`category` and `amount` hold whatever dynamically-typed value the handler
wrote (SQLite is dynamically typed and `add_budget` does not validate). -/
structure BudgetRow where
  user_id : Nat
  category : Value
  amount : Value
  month_year : Nat
deriving DecidableEq

/-- Row of the `expenses` table (append-only; `timestamp` is the
server-assigned `CURRENT_TIMESTAMP`). -/
structure ExpenseRow where
  user_id : Nat
  category : String
  amount : ℚ
  description : String
  timestamp : Date
deriving DecidableEq

/-- Row of the `goals` table: `UNIQUE(user_id, name)`, `current_amount`
defaults to `0`. -/
structure GoalRow where
  user_id : Nat
  name : String
  target_amount : ℚ
  current_amount : ℚ
  deadline : String
  created_at : Date
deriving DecidableEq

/-- Row of the `notifications` table.  The `message` text interpolates the
category and the overspent amount; we keep those two fields structurally
instead of the formatted string. -/
structure NotifRow where
  user_id : Nat
  msg_category : String
  msg_overspent : ℚ
  ntype : String
  is_read : Bool
  created_at : Date
deriving DecidableEq

/-- The persistent store: the six tables of `init_db`.  Lists of rows are
kept in insertion order except `notifications`, kept newest-first (new
alerts are prepended) so that `ORDER BY created_at DESC` is the stored
order. -/
structure State where
  users : List UserRow
  income : List IncomeRow
  budgets : List BudgetRow
  expenses : List ExpenseRow
  goals : List GoalRow
  notifications : List NotifRow
deriving DecidableEq

/-- Error taxonomy of the handlers.  `validation` is an HTTP 400 with an
error payload, `duplicate` the goal-name 400, `unauthorized` the 401 of
`check_session`, and `dbError` an uncaught `sqlite3.IntegrityError`
(HTTP 500), e.g. a `NOT NULL` violation. -/
inductive ApiError where
  | unauthorized
  | validation
  | duplicate
  | dbError
deriving DecidableEq

/-- `check_session`: a data endpoint requires `session['logged_in']`;
the session is modelled as `some user_id` when logged in. -/
def check_session (session : Option Nat) : Except ApiError Nat :=
  match session with
  | none => Except.error ApiError.unauthorized
  | some uid => Except.ok uid

/-- The `UNIQUE(user_id, month_year)` key of an income row. -/
def incomeKeyB (uid mk : Nat) (r : IncomeRow) : Bool :=
  r.user_id = uid && r.month_year = mk

/-- The income rows of `(user, month)`. -/
def incomeRows (uid mk : Nat) (s : State) : List IncomeRow :=
  s.income.filter (incomeKeyB uid mk)

/-- The `UNIQUE(user_id, category, month_year)` key of a budget row,
compared as SQL compares the queried category value. -/
def budgetKeyB (uid : Nat) (c : Value) (mk : Nat) (b : BudgetRow) : Bool :=
  b.user_id = uid && sqlEqB b.category c && b.month_year = mk

/-- The `UNIQUE(user_id, name)` key of a goal row. -/
def goalKeyB (uid : Nat) (name : String) (g : GoalRow) : Bool :=
  g.user_id = uid && g.name = name

/-- `set_income`: validates that the amount is a non-negative number
(`isinstance(amount, (int, float)) and amount >= 0`), then
insert-or-replaces the `(user, current month)` income row with a fresh
`created_at`. -/
def set_income (session : Option Nat) (amount : Value) (now : Date) (s : State) :
    Except ApiError State :=
  match check_session session with
  | Except.error e => Except.error e
  | Except.ok uid =>
    match amount with
    | Value.num a =>
      if a < 0 then Except.error ApiError.validation
      else
        Except.ok { s with income := (s.income.filter (fun r => !incomeKeyB uid (monthKey now) r)) ++ [⟨uid, a, monthKey now, now⟩] }
    | _ => Except.error ApiError.validation

/-- The budget rows of the `UNIQUE(user_id, category, month_year)` key. -/
def budgetRows (uid : Nat) (c : Value) (mk : Nat) (s : State) : List BudgetRow :=
  s.budgets.filter (budgetKeyB uid c mk)

/-- `add_budget`: no input validation; insert-or-replaces the
`(user, category, current month)` budget row with whatever value was sent.
A `null` (absent) category or amount violates the schema's `NOT NULL`
constraints: `sqlite3.IntegrityError`, uncaught, so nothing is written. -/
def add_budget (session : Option Nat) (category amount : Value) (now : Date) (s : State) :
    Except ApiError State :=
  match check_session session with
  | Except.error e => Except.error e
  | Except.ok uid =>
    if category = Value.null ∨ amount = Value.null then Except.error ApiError.dbError
    else
      Except.ok { s with budgets := (s.budgets.filter (fun b => !budgetKeyB uid category (monthKey now) b)) ++ [⟨uid, category, amount, monthKey now⟩] }

/-- `delete_budget`: deletes the `(user, category, current month)` budget
row(s); always reports success. -/
def delete_budget (session : Option Nat) (category : Value) (now : Date) (s : State) :
    Except ApiError State :=
  match check_session session with
  | Except.error e => Except.error e
  | Except.ok uid =>
    Except.ok { s with budgets := s.budgets.filter (fun b => !budgetKeyB uid category (monthKey now) b) }

/-- The budget row `check_overspending` fetches:
`SELECT amount FROM budgets WHERE user_id = ? AND category = ? AND month_year = ?`
(`fetchone`). -/
def findBudget (uid : Nat) (category : String) (now : Date) (s : State) : Option BudgetRow :=
  s.budgets.find? (budgetKeyB uid (Value.str category) (monthKey now))

/-- Month-to-date spend of `(user, category)`:
`SELECT SUM(amount) FROM expenses WHERE user_id = ? AND category = ? AND timestamp >= ?`
with `?` the first of the current month (`or 0` when there are no rows:
the empty sum is `0`). -/
def monthSpent (uid : Nat) (category : String) (now : Date) (s : State) : ℚ :=
  ((s.expenses.filter (fun e => e.user_id = uid && e.category = category && dateKey (monthStart now) ≤ dateKey e.timestamp)).map (fun e => e.amount)).sum

/-- The notification record `check_overspending` inserts (type `danger`,
unread, fresh timestamp; the message interpolates category and overspent
amount). -/
def mkOverspendNotif (uid : Nat) (category : String) (overspent : ℚ) (now : Date) : NotifRow :=
  ⟨uid, category, overspent, "danger", false, now⟩

/-- `check_overspending`: if no budget row exists for the category this
month, return unchanged.  Otherwise compare the month-to-date spend with
`float(budget['amount'])` and insert one alert when spend exceeds budget.
(If the stored budget amount is not a number, `float` raises and no
notification is persisted; parsing of numeric strings is outside the
modelled fragment.) -/
def check_overspending (uid : Nat) (category : String) (now : Date) (s : State) : State :=
  match findBudget uid category now s with
  | none => s
  | some b =>
    match b.amount with
    | Value.num q =>
      let total := monthSpent uid category now s
      if q < total then
        { s with notifications := mkOverspendNotif uid category (total - q) now :: s.notifications }
      else s
    | _ => s

/-- The state right after the expense `INSERT` commits, before the
overspend check runs. -/
def afterExpense (uid : Nat) (category : String) (amount : ℚ) (description : String)
    (now : Date) (s : State) : State :=
  { s with expenses := s.expenses ++ [⟨uid, category, amount, description, now⟩] }

/-- `add_expense`: append-only insert with server-assigned timestamp,
then the synchronous overspend check. -/
def add_expense (session : Option Nat) (category : String) (amount : ℚ)
    (description : String) (now : Date) (s : State) : Except ApiError State :=
  match check_session session with
  | Except.error e => Except.error e
  | Except.ok uid =>
    Except.ok (check_overspending uid category now (afterExpense uid category amount description now s))

/-- `add_goal`: `INSERT INTO goals (user_id, name, target_amount, deadline)`;
`current_amount` defaults to `0`.  A goal of the same name for the same
user violates `UNIQUE(user_id, name)`: the caught `IntegrityError` becomes
the Duplicate error. -/
def add_goal (session : Option Nat) (name : String) (target : ℚ) (deadline : String)
    (now : Date) (s : State) : Except ApiError State :=
  match check_session session with
  | Except.error e => Except.error e
  | Except.ok uid =>
    if s.goals.any (goalKeyB uid name) then
      Except.error ApiError.duplicate
    else
      Except.ok { s with goals := s.goals ++ [⟨uid, name, target, 0, deadline, now⟩] }

/-- `delete_goal`: `DELETE FROM goals WHERE user_id = ? AND name = ?`;
always reports success. -/
def delete_goal (session : Option Nat) (name : String) (s : State) : Except ApiError State :=
  match check_session session with
  | Except.error e => Except.error e
  | Except.ok uid =>
    Except.ok { s with goals := s.goals.filter (fun g => !goalKeyB uid name g) }

/-- `add_saving`:
`UPDATE goals SET current_amount = current_amount + ? WHERE user_id = ? AND name = ?`;
always reports success, also when no row matches. -/
def add_saving (session : Option Nat) (goal_name : String) (amount : ℚ) (s : State) :
    Except ApiError State :=
  match check_session session with
  | Except.error e => Except.error e
  | Except.ok uid =>
    Except.ok { s with goals := s.goals.map (fun g => if goalKeyB uid goal_name g then { g with current_amount := g.current_amount + amount } else g) }

/-- `GET /api/notifications`: the 50 most recent notifications of the
user, newest-first (the stored order). -/
def get_notifications (session : Option Nat) (s : State) : Except ApiError (List NotifRow) :=
  match check_session session with
  | Except.error e => Except.error e
  | Except.ok uid =>
    Except.ok ((s.notifications.filter (fun n => n.user_id = uid)).take 50)

/-- Newest-first ordering of expenses (`ORDER BY timestamp DESC`). -/
def newerEq (a b : ExpenseRow) : Prop := dateKey b.timestamp ≤ dateKey a.timestamp

instance : DecidableRel newerEq := fun a b => Nat.decLe _ _

/-- The read model of `load_user_data`: current-month income and budgets,
all expenses newest-first, all goals newest-first, and the 10 most recent
unread notifications. -/
structure ReadModel where
  income_amount : ℚ
  income_updated : Option Date
  budgets : List (Value × Value)
  expenses : List ExpenseRow
  goals : List GoalRow
  notifications : List NotifRow
deriving DecidableEq

/-- `load_user_data`: the single canonical aggregated read (no mutation).
Income absent for the current month reads as amount `0` with no
`updated_at`; goals are returned newest-first (`ORDER BY created_at DESC`,
the reverse of insertion order). -/
def load_user_data (uid : Nat) (now : Date) (s : State) : ReadModel :=
  let inc := (incomeRows uid (monthKey now) s).head?
  { income_amount := match inc with | some r => r.amount | none => 0
    income_updated := match inc with | some r => some r.created_at | none => none
    budgets := (s.budgets.filter (fun b => b.user_id = uid && b.month_year = monthKey now)).map (fun b => (b.category, b.amount))
    expenses := List.insertionSort newerEq (s.expenses.filter (fun e => e.user_id = uid))
    goals := (s.goals.filter (fun g => g.user_id = uid)).reverse
    notifications := ((s.notifications.filter (fun n => n.user_id = uid && n.is_read = false)).take 10) }

/-- `GET /api/data`. -/
def get_data (session : Option Nat) (now : Date) (s : State) : Except ApiError ReadModel :=
  match check_session session with
  | Except.error e => Except.error e
  | Except.ok uid => Except.ok (load_user_data uid now s)

/-- The start of the trend window:
`(datetime.now() - timedelta(days=180)).strftime('%Y-%m-01')`. -/
def trendWindowStart (now : Date) : Date := monthStart (subDays now 180)

/-- The expense rows the trend query ranges over:
`WHERE user_id = ? AND timestamp >= ?` with `?` the window start. -/
def trendExpenses (uid : Nat) (now : Date) (s : State) : List ExpenseRow :=
  s.expenses.filter (fun e => e.user_id = uid && dateKey (trendWindowStart now) ≤ dateKey e.timestamp)

/-- `GROUP BY month ORDER BY month`: the distinct month keys of the rows
the trend query ranges over, in ascending order. -/
def trendKeys (uid : Nat) (now : Date) (s : State) : List Nat :=
  List.insertionSort (· ≤ ·) ((trendExpenses uid now s).map (fun e => monthKey e.timestamp)).dedup

/-- Each month key of the grouping with `SUM(amount)` over its rows. -/
def trendPairs (uid : Nat) (now : Date) (s : State) : List (Nat × ℚ) :=
  (trendKeys uid now s).map
    (fun k => (k, (((trendExpenses uid now s).filter (fun e => monthKey e.timestamp = k)).map (fun e => e.amount)).sum))

/-- Output of the trend endpoint: parallel month labels (modelled by
`monthKey`) and per-month expense totals. -/
structure TrendResult where
  labels : List Nat
  expenses : List ℚ
deriving DecidableEq

/-- `generate_trend_analysis`. -/
def generate_trend_analysis (uid : Nat) (now : Date) (s : State) : TrendResult :=
  { labels := (trendPairs uid now s).map Prod.fst
    expenses := (trendPairs uid now s).map Prod.snd }

/-- `GET /api/analytics/trends`. -/
def get_trends (session : Option Nat) (now : Date) (s : State) : Except ApiError TrendResult :=
  match check_session session with
  | Except.error e => Except.error e
  | Except.ok uid => Except.ok (generate_trend_analysis uid now s)

/-! Client-side dashboard statistics (`updateDashboardStats` and its caller
`refreshUI`): they are computed by the consuming layer from the read model
but belong to the read-model contract. -/

/-- `refreshUI`: the expenses whose timestamp starts with the current
`YYYY-MM` prefix, i.e. the current-month expenses. -/
def currentMonthExpenses (now : Date) (expenses : List ExpenseRow) : List ExpenseRow :=
  expenses.filter (fun e => monthKey e.timestamp = monthKey now)

/-- `expenses.reduce((sum, e) => sum + e.amount, 0)`. -/
def totalExpenses (es : List ExpenseRow) : ℚ := (es.map (fun e => e.amount)).sum

/-- `const remaining = income - totalExpenses`. -/
def remaining (income total : ℚ) : ℚ := income - total

/-- `const savingsRate = income > 0 ? ((remaining / income) * 100) : 0`
(the display-only `toFixed(1)` rounding is elided). -/
def savingsRate (income total : ℚ) : ℚ :=
  if 0 < income then remaining income total / income * 100 else 0

/-- The rendered rate: `savingsRate > 0 ? savingsRate : 0`. -/
def displayedSavingsRate (income total : ℚ) : ℚ :=
  if 0 < savingsRate income total then savingsRate income total else 0

/-! Concrete fixtures used to instantiate the theorems below. -/

/-- A fixed current date, 2026-10-12 (`monthKey` 24322). -/
def d0 : Date := ⟨2026, 10, 12⟩

/-- The empty store. -/
def emptyState : State := ⟨[], [], [], [], [], []⟩

/-- A store of user 1 with a `Food` budget of 300 for 2026-10 and one
`Food` expense of 120 logged on 2026-10-05. -/
def stOverspend : State :=
  ⟨[], [], [⟨1, Value.str "Food", Value.num 300, 24322⟩], [⟨1, "Food", 120, "", ⟨2026, 10, 5⟩⟩], [], []⟩

/-- A store of user 1 with a single expense logged on 2026-04-20. -/
def stApril : State := ⟨[], [], [], [⟨1, "Food", 20, "", ⟨2026, 4, 20⟩⟩], [], []⟩

/-- A store of user 1 with expenses in exactly two months (2026-05 and
2026-10). -/
def stTwoMonths : State :=
  ⟨[], [], [], [⟨1, "Food", 100, "", ⟨2026, 5, 3⟩⟩, ⟨1, "Rent", 50, "", ⟨2026, 10, 2⟩⟩], [], []⟩

/-- A store of user 1 with one goal named `Car` holding 40 of 500. -/
def stGoal : State := ⟨[], [], [], [], [⟨1, "Car", 500, 40, "2027-01-01", ⟨2026, 9, 1⟩⟩], []⟩

/-! General-purpose lemmas about the model. -/

lemma sqlEqB_self {c : Value} (h : c ≠ Value.null) : sqlEqB c c = true := by
  cases c with
  | num q => simp [sqlEqB]
  | str v => simp [sqlEqB]
  | null => exact absurd rfl h

lemma filter_not_filter {α : Type} (p : α → Bool) (l : List α) :
    (l.filter (fun a => !p a)).filter p = [] := by
  induction l with
  | nil => rfl
  | cons x xs ih =>
    cases h : p x with
    | true => simpa [List.filter_cons, h] using ih
    | false => simpa [List.filter_cons, h] using ih

lemma upsert_filter {α : Type} (p : α → Bool) (l : List α) (x : α) (hx : p x = true) :
    ((l.filter (fun a => !p a)) ++ [x]).filter p = [x] := by
  simp [List.filter_append, filter_not_filter, List.filter_cons, hx]

lemma map_if_id {α : Type} (p : α → Bool) (f : α → α) (l : List α)
    (h : ∀ a ∈ l, p a = false) :
    (l.map (fun a => if p a then f a else a)) = l := by
  induction l with
  | nil => rfl
  | cons x xs ih =>
    have hx : p x = false := h x (List.mem_cons_self x xs)
    have hxs : ∀ a ∈ xs, p a = false := fun a ha => h a (List.mem_cons_of_mem x ha)
    simp [hx, ih hxs]

lemma daysInMonth_pos (y m : Nat) : 1 ≤ daysInMonth y m := by
  unfold daysInMonth
  split_ifs <;> norm_num

lemma daysInMonth_le (y m : Nat) : daysInMonth y m ≤ 31 := by
  unfold daysInMonth
  split_ifs <;> norm_num

lemma prevDay_valid {d : Date} (h : d.Valid) : (prevDay d).Valid := by
  obtain ⟨hm1, hm2, hd1, hd2⟩ := h
  unfold prevDay
  split_ifs with hday hmonth
  · exact ⟨hm1, hm2, Nat.le_pred_of_lt hday, Nat.le_trans (Nat.sub_le _ _) hd2⟩
  · exact ⟨Nat.le_pred_of_lt hmonth, Nat.le_trans (Nat.sub_le _ _) hm2, daysInMonth_pos _ _, Nat.le_refl _⟩
  · exact ⟨by norm_num, by norm_num, by norm_num, by norm_num [daysInMonth]⟩

lemma subDays_valid {d : Date} (h : d.Valid) (n : Nat) : (subDays d n).Valid := by
  induction n with
  | zero => exact h
  | succ k ih => exact prevDay_valid ih

lemma monthStart_valid {d : Date} (h : d.Valid) : (monthStart d).Valid :=
  ⟨h.1, h.2.1, le_refl 1, daysInMonth_pos _ _⟩

/-- Comparison of (valid) dates refines comparison of their months: this is
why filtering timestamps from the first of a month captures exactly the
months from that one on. -/
lemma monthKey_mono {d1 d2 : Date} (h1 : d1.Valid) (h2 : d2.Valid)
    (h : dateKey d1 ≤ dateKey d2) : monthKey d1 ≤ monthKey d2 := by
  obtain ⟨a1, a2, a3, a4⟩ := h1
  obtain ⟨b1, b2, b3, b4⟩ := h2
  have c1 := daysInMonth_le d1.year d1.month
  have c2 := daysInMonth_le d2.year d2.month
  unfold dateKey at h
  unfold monthKey
  omega

/-- Case analysis of `check_overspending`: no budget row means no change;
a numeric budget row means one prepended alert exactly when the
month-to-date spend exceeds it. -/
lemma check_overspending_spec (uid : Nat) (cat : String) (now : Date) (s : State) :
    (findBudget uid cat now s = none → check_overspending uid cat now s = s) ∧
    (∀ b q, findBudget uid cat now s = some b → b.amount = Value.num q →
      (q < monthSpent uid cat now s →
        check_overspending uid cat now s =
          { s with notifications := mkOverspendNotif uid cat (monthSpent uid cat now s - q) now :: s.notifications }) ∧
      (monthSpent uid cat now s ≤ q → check_overspending uid cat now s = s)) := by
  constructor
  · intro hfb
    unfold check_overspending
    rw [hfb]
  · intro b q hfb hq
    obtain ⟨bu, bc, ba, bm⟩ := b
    simp only [BudgetRow.mk.injEq] at hq
    subst hq
    constructor
    · intro hlt
      unfold check_overspending
      rw [hfb]
      simp [hlt]
    · intro hle
      unfold check_overspending
      rw [hfb]
      simp [not_lt.mpr hle]

/-- `check_overspending` can only touch the notifications table. -/
lemma check_overspending_state (uid : Nat) (cat : String) (now : Date) (s : State) :
    ∃ n, check_overspending uid cat now s = { s with notifications := n } := by
  unfold check_overspending
  cases hfb : findBudget uid cat now s with
  | none => exact ⟨s.notifications, rfl⟩
  | some b =>
    obtain ⟨bu, bc, ba, bm⟩ := b
    cases ba with
    | num q =>
      by_cases h : q < monthSpent uid cat now s
      · exact ⟨mkOverspendNotif uid cat (monthSpent uid cat now s - q) now :: s.notifications, by simp [h]⟩
      · exact ⟨s.notifications, by simp [h]⟩
    | str v => exact ⟨s.notifications, by simp⟩
    | null => exact ⟨s.notifications, by simp⟩

/-- A valid `set_income` call insert-or-replaces the row of
`(user, current month)`. -/
lemma set_income_ok (uid : Nat) (a : ℚ) (ha : 0 ≤ a) (now : Date) (s : State) :
    set_income (some uid) (Value.num a) now s =
      Except.ok { s with income := (s.income.filter (fun r => !incomeKeyB uid (monthKey now) r)) ++ [⟨uid, a, monthKey now, now⟩] } := by
  simp [set_income, check_session, not_lt.mpr ha]

/-- An `add_budget` call with non-null inputs insert-or-replaces the row of
`(user, category, current month)`. -/
lemma add_budget_ok (uid : Nat) (c a : Value) (hc : c ≠ Value.null) (ha : a ≠ Value.null)
    (now : Date) (s : State) :
    add_budget (some uid) c a now s =
      Except.ok { s with budgets := (s.budgets.filter (fun b => !budgetKeyB uid c (monthKey now) b)) ++ [⟨uid, c, a, monthKey now⟩] } := by
  simp [add_budget, check_session, hc, ha]

/-! The claims. -/

/-- C5: every data-bearing operation (fetch aggregated state, set income,
upsert/delete budget, add expense, add/delete goal, add saving, fetch
notifications, fetch trends) rejects a caller without an authenticated
session identity with an Unauthorized error; the `Except.error` result
carries no new state, so no table is read or written and the persisted
state is unchanged. -/
theorem unauthorized_no_effect (now : Date) (s : State) (v c a : Value)
    (cat desc name deadline gname : String) (amt t q : ℚ) :
    get_data none now s = Except.error ApiError.unauthorized ∧
    set_income none v now s = Except.error ApiError.unauthorized ∧
    add_budget none c a now s = Except.error ApiError.unauthorized ∧
    delete_budget none c now s = Except.error ApiError.unauthorized ∧
    add_expense none cat amt desc now s = Except.error ApiError.unauthorized ∧
    add_goal none name t deadline now s = Except.error ApiError.unauthorized ∧
    delete_goal none name s = Except.error ApiError.unauthorized ∧
    add_saving none gname q s = Except.error ApiError.unauthorized ∧
    get_notifications none s = Except.error ApiError.unauthorized ∧
    get_trends none now s = Except.error ApiError.unauthorized :=
  ⟨rfl, rfl, rfl, rfl, rfl, rfl, rfl, rfl, rfl, rfl⟩

/-- C3: `set_income` rejects a non-numeric or negative amount with a
Validation error and writes nothing (the error result carries no state);
for every valid amount the `(user, current month)` row is insert-or-replaced
with the new amount and a fresh timestamp, and setting income twice in the
same month leaves exactly one income row for that month, the second amount
winning. -/
theorem set_income_spec (uid : Nat) (now : Date) (s : State) :
    (∀ v : Value, (∀ a : ℚ, v ≠ Value.num a) →
      set_income (some uid) v now s = Except.error ApiError.validation) ∧
    (∀ a : ℚ, a < 0 →
      set_income (some uid) (Value.num a) now s = Except.error ApiError.validation) ∧
    (∀ a : ℚ, 0 ≤ a → ∃ s1, set_income (some uid) (Value.num a) now s = Except.ok s1 ∧
      incomeRows uid (monthKey now) s1 = [⟨uid, a, monthKey now, now⟩] ∧
      s1.budgets = s.budgets ∧ s1.expenses = s.expenses ∧ s1.goals = s.goals ∧
      s1.notifications = s.notifications) ∧
    (∀ a b : ℚ, 0 ≤ a → 0 ≤ b →
      ∃ s2, (set_income (some uid) (Value.num a) now s).bind (set_income (some uid) (Value.num b) now) = Except.ok s2 ∧
        incomeRows uid (monthKey now) s2 = [⟨uid, b, monthKey now, now⟩]) := by
  refine ⟨?_, ?_, ?_, ?_⟩
  · intro v hv
    cases v with
    | num a => exact absurd rfl (hv a)
    | str x => rfl
    | null => rfl
  · intro a ha
    simp [set_income, check_session, ha]
  · intro a ha
    rw [set_income_ok uid a ha now s]
    refine ⟨_, rfl, ?_, rfl, rfl, rfl, rfl⟩
    exact upsert_filter _ _ _ (by simp [incomeKeyB])
  · intro a b ha hb
    rw [set_income_ok uid a ha now s]
    simp only [Except.bind]
    rw [set_income_ok uid b hb now _]
    refine ⟨_, rfl, ?_⟩
    exact upsert_filter _ _ _ (by simp [incomeKeyB])

/-- C3 witness: on the empty store, a non-numeric amount is rejected and
setting income to 5 then 7 in the same month leaves the single row 7. -/
theorem set_income_spec_witness :
    set_income (some 1) (Value.str "abc") d0 emptyState = Except.error ApiError.validation ∧
    ∃ s2, (set_income (some 1) (Value.num 5) d0 emptyState).bind (set_income (some 1) (Value.num 7) d0) = Except.ok s2 ∧
      incomeRows 1 (monthKey d0) s2 = [⟨1, 7, monthKey d0, d0⟩] := by
  obtain ⟨h1, _, _, h4⟩ := set_income_spec 1 d0 emptyState
  exact ⟨h1 (Value.str "abc") (fun a => by simp), h4 5 7 (by norm_num) (by norm_num)⟩

/-- C4: upserting a budget twice for the same category in the same month
leaves exactly one budget row for that `(user, category, month)`, the
latest amount winning. -/
theorem add_budget_unique (uid : Nat) (c a1 a2 : Value) (now : Date) (s : State)
    (hc : c ≠ Value.null) (h1 : a1 ≠ Value.null) (h2 : a2 ≠ Value.null) :
    ∃ s2, (add_budget (some uid) c a1 now s).bind (add_budget (some uid) c a2 now) = Except.ok s2 ∧
      budgetRows uid c (monthKey now) s2 = [⟨uid, c, a2, monthKey now⟩] := by
  rw [add_budget_ok uid c a1 hc h1 now s]
  simp only [Except.bind]
  rw [add_budget_ok uid c a2 hc h2 now _]
  refine ⟨_, rfl, ?_⟩
  exact upsert_filter _ _ _ (by simp [budgetKeyB, sqlEqB_self hc])

/-- C4 witness: upserting `Food` to 100 then 250 on the empty store leaves
the single row 250. -/
theorem add_budget_unique_witness :
    ∃ s2, (add_budget (some 1) (Value.str "Food") (Value.num 100) d0 emptyState).bind (add_budget (some 1) (Value.str "Food") (Value.num 250) d0) = Except.ok s2 ∧
      budgetRows 1 (Value.str "Food") (monthKey d0) s2 = [⟨1, Value.str "Food", Value.num 250, monthKey d0⟩] :=
  add_budget_unique 1 (Value.str "Food") (Value.num 100) (Value.num 250) d0 emptyState
    (by simp) (by simp) (by simp)

/-- C6: `delete_budget` succeeds unconditionally, removes only rows with
the `(user, category, current month)` key (budgets of other months and
categories and every other table survive), and deleting a non-existent
budget changes no persisted state. -/
theorem delete_budget_spec (uid : Nat) (c : Value) (now : Date) (s : State) :
    ∃ s1, delete_budget (some uid) c now s = Except.ok s1 ∧
      s1.budgets = s.budgets.filter (fun b => !budgetKeyB uid c (monthKey now) b) ∧
      s1.income = s.income ∧ s1.expenses = s.expenses ∧ s1.goals = s.goals ∧
      s1.notifications = s.notifications ∧
      (∀ b ∈ s.budgets, budgetKeyB uid c (monthKey now) b = false → b ∈ s1.budgets) ∧
      (budgetRows uid c (monthKey now) s = [] → s1 = s) := by
  refine ⟨_, rfl, rfl, rfl, rfl, rfl, rfl, ?_, ?_⟩
  · intro b hb hkey
    exact List.mem_filter.mpr ⟨hb, by simp [hkey]⟩
  · intro hrows
    have hall := List.filter_eq_nil_iff.mp hrows
    have hself : s.budgets.filter (fun b => !budgetKeyB uid c (monthKey now) b) = s.budgets := by
      refine List.filter_eq_self.mpr ?_
      intro b hb
      simpa using hall b hb
    show { s with budgets := s.budgets.filter _ } = s
    rw [hself]

/-- C6 witness: deleting the `Food` budget from the empty store succeeds
and leaves the store unchanged. -/
theorem delete_budget_spec_witness :
    delete_budget (some 1) (Value.str "Food") d0 emptyState = Except.ok emptyState := by
  obtain ⟨s1, hok, _, _, _, _, _, _, hnil⟩ := delete_budget_spec 1 (Value.str "Food") d0 emptyState
  rw [hok, hnil rfl]

/-- C7: creating a goal whose name the user already owns fails with a
Duplicate error and writes no row; otherwise a new goal row is inserted
with accumulated amount `0` and the call succeeds. -/
theorem add_goal_spec (uid : Nat) (name : String) (target : ℚ) (deadline : String)
    (now : Date) (s : State) :
    ((∃ g ∈ s.goals, g.user_id = uid ∧ g.name = name) →
      add_goal (some uid) name target deadline now s = Except.error ApiError.duplicate) ∧
    ((∀ g ∈ s.goals, ¬(g.user_id = uid ∧ g.name = name)) →
      add_goal (some uid) name target deadline now s =
        Except.ok { s with goals := s.goals ++ [⟨uid, name, target, 0, deadline, now⟩] }) := by
  constructor
  · rintro ⟨g, hg, hu, hn⟩
    have hany : s.goals.any (goalKeyB uid name) = true :=
      List.any_eq_true.mpr ⟨g, hg, by simp [goalKeyB, hu, hn]⟩
    simp [add_goal, check_session, hany]
  · intro h
    have hany : s.goals.any (goalKeyB uid name) = false := by
      rw [List.any_eq_false]
      intro g hg
      simpa [goalKeyB] using h g hg
    simp [add_goal, check_session, hany]

/-- C7 witness: re-creating `Car` for user 1 is a Duplicate error; creating
`Boat` inserts a goal with accumulated amount `0`. -/
theorem add_goal_spec_witness :
    add_goal (some 1) "Car" 900 "2028-01-01" d0 stGoal = Except.error ApiError.duplicate ∧
    add_goal (some 1) "Boat" 900 "2028-01-01" d0 stGoal =
      Except.ok { stGoal with goals := stGoal.goals ++ [⟨1, "Boat", 900, 0, "2028-01-01", d0⟩] } := by
  obtain ⟨hdup, hok⟩ := add_goal_spec 1 "Car" 900 "2028-01-01" d0 stGoal
  obtain ⟨_, hok2⟩ := add_goal_spec 1 "Boat" 900 "2028-01-01" d0 stGoal
  constructor
  · exact hdup ⟨⟨1, "Car", 500, 40, "2027-01-01", ⟨2026, 9, 1⟩⟩, by simp [stGoal], rfl, rfl⟩
  · exact hok2 (by intro g hg; simp [stGoal] at hg; simp [hg])

/-- C8: `add_saving` always reports success; goals matching
`(user, goal name)` get their accumulated amount incremented, everything
else is untouched, and when no goal of that name exists for the user the
whole store is unchanged (silent no-op, not a Not-Found error). -/
theorem add_saving_spec (uid : Nat) (gname : String) (a : ℚ) (s : State) :
    ∃ s1, add_saving (some uid) gname a s = Except.ok s1 ∧
      s1.goals = s.goals.map (fun g => if goalKeyB uid gname g then { g with current_amount := g.current_amount + a } else g) ∧
      s1.income = s.income ∧ s1.budgets = s.budgets ∧ s1.expenses = s.expenses ∧
      s1.notifications = s.notifications ∧
      ((∀ g ∈ s.goals, ¬(g.user_id = uid ∧ g.name = gname)) → s1 = s) := by
  refine ⟨_, rfl, rfl, rfl, rfl, rfl, rfl, ?_⟩
  intro h
  have hmap := map_if_id (goalKeyB uid gname)
    (fun g => { g with current_amount := g.current_amount + a }) s.goals
    (fun g hg => by simpa [goalKeyB] using h g hg)
  show { s with goals := s.goals.map _ } = s
  rw [hmap]

/-- C8 witness: contributing 60 to the existing goal `Car` increments it to
100; contributing to the absent goal `Boat` succeeds and changes nothing. -/
theorem add_saving_spec_witness :
    (∃ s1, add_saving (some 1) "Car" 60 stGoal = Except.ok s1 ∧
      s1.goals = [⟨1, "Car", 500, 100, "2027-01-01", ⟨2026, 9, 1⟩⟩]) ∧
    add_saving (some 1) "Boat" 60 stGoal = Except.ok stGoal := by
  constructor
  · obtain ⟨s1, hok, hgoals, _⟩ := add_saving_spec 1 "Car" 60 stGoal
    refine ⟨s1, hok, ?_⟩
    rw [hgoals]
    simp [stGoal, goalKeyB]
    norm_num
  · obtain ⟨s1, hok, _, _, _, _, _, hid⟩ := add_saving_spec 1 "Boat" 60 stGoal
    rw [hok, hid (by intro g hg; simp [stGoal] at hg; simp [hg])]

/-- C9: the dashboard statistics satisfy `remaining = income − spend`
(possibly negative), and the displayed savings rate is
`remaining / income × 100` when income is positive and that value is
positive, and `0` when income is zero or the computed rate is not
positive; in particular income 1000 with expenses 1200 shows remaining
−200 and a 0% savings rate, never a negative percentage. -/
theorem dashboard_stats_spec :
    remaining 1000 1200 = -200 ∧ displayedSavingsRate 1000 1200 = 0 ∧
    (∀ i t : ℚ, remaining i t = i - t) ∧
    (∀ i t : ℚ, 0 < i → 0 < (i - t) / i * 100 → displayedSavingsRate i t = (i - t) / i * 100) ∧
    (∀ i t : ℚ, i = 0 ∨ (i - t) / i * 100 ≤ 0 → displayedSavingsRate i t = 0) := by
  refine ⟨by norm_num [remaining], by norm_num [displayedSavingsRate, savingsRate, remaining], fun i t => rfl, ?_, ?_⟩
  · intro i t hi hrate
    have hs : savingsRate i t = (i - t) / i * 100 := by simp [savingsRate, remaining, hi]
    simp [displayedSavingsRate, hs, hrate]
  · intro i t h
    rcases h with h0 | hle
    · subst h0
      simp [displayedSavingsRate, savingsRate]
    · by_cases hi : 0 < i
      · have hs : savingsRate i t = (i - t) / i * 100 := by simp [savingsRate, remaining, hi]
        simp [displayedSavingsRate, hs, not_lt.mpr hle]
      · have hs : savingsRate i t = 0 := by simp [savingsRate, hi]
        simp [displayedSavingsRate, hs]

/-- C9 witness: income 1000 with spend 500 displays a 50% rate; income 1000
with spend 1200 displays 0%. -/
theorem dashboard_stats_spec_witness :
    displayedSavingsRate 1000 500 = 50 ∧ displayedSavingsRate 1000 1200 = 0 := by
  obtain ⟨_, _, _, hpos, hzero⟩ := dashboard_stats_spec
  constructor
  · rw [hpos 1000 500 (by norm_num) (by norm_num)]
    norm_num
  · exact hzero 1000 1200 (Or.inr (by norm_num))

/-- C1: an authenticated expense insert always commits the expense; if a
budget row with a numeric amount exists for `(user, category, current
month)` and the month-to-date spend including the new expense exceeds it,
exactly one new notification is prepended — regardless of the prior
notifications in `s`, so alerts are not deduplicated against earlier alerts
for the same category and month; if the spend does not exceed the budget,
or no budget row exists for the category this month, the notifications are
unchanged. -/
theorem add_expense_overspend (uid : Nat) (category : String) (amount : ℚ)
    (description : String) (now : Date) (s : State) :
    ∃ s2, add_expense (some uid) category amount description now s = Except.ok s2 ∧
      s2.expenses = s.expenses ++ [⟨uid, category, amount, description, now⟩] ∧
      s2.income = s.income ∧ s2.budgets = s.budgets ∧ s2.goals = s.goals ∧
      (findBudget uid category now s = none → s2.notifications = s.notifications) ∧
      (∀ b q, findBudget uid category now s = some b → b.amount = Value.num q →
        (q < monthSpent uid category now (afterExpense uid category amount description now s) →
          s2.notifications = mkOverspendNotif uid category (monthSpent uid category now (afterExpense uid category amount description now s) - q) now :: s.notifications) ∧
        (monthSpent uid category now (afterExpense uid category amount description now s) ≤ q →
          s2.notifications = s.notifications)) := by
  obtain ⟨hnone, hsome⟩ :=
    check_overspending_spec uid category now (afterExpense uid category amount description now s)
  obtain ⟨n, hn⟩ :=
    check_overspending_state uid category now (afterExpense uid category amount description now s)
  refine ⟨_, rfl, ?_, ?_, ?_, ?_, ?_, ?_⟩
  · rw [hn]
    rfl
  · rw [hn]
    rfl
  · rw [hn]
    rfl
  · rw [hn]
    rfl
  · intro h
    rw [hnone h]
    rfl
  · intro b q hfb hq
    obtain ⟨hlt, hle⟩ := hsome b q hfb hq
    constructor
    · intro h
      rw [hlt h]
      rfl
    · intro h
      rw [hle h]
      rfl

/-- C1 witness: with a `Food` budget of 300 and 120 already spent this
month, logging a 250 `Food` expense leaves exactly one alert, overspent by
70. -/
theorem add_expense_overspend_witness :
    ∃ s2, add_expense (some 1) "Food" 250 "" d0 stOverspend = Except.ok s2 ∧
      s2.notifications = [mkOverspendNotif 1 "Food" 70 d0] := by
  obtain ⟨s2, hok, _, _, _, _, _, hsome⟩ := add_expense_overspend 1 "Food" 250 "" d0 stOverspend
  have hfb : findBudget 1 "Food" d0 stOverspend = some ⟨1, Value.str "Food", Value.num 300, 24322⟩ := by
    simp [findBudget, stOverspend, budgetKeyB, sqlEqB, monthKey, d0]
  obtain ⟨hlt, _⟩ := hsome ⟨1, Value.str "Food", Value.num 300, 24322⟩ 300 hfb rfl
  have hms : monthSpent 1 "Food" d0 (afterExpense 1 "Food" 250 "" d0 stOverspend) = 370 := by
    simp [monthSpent, afterExpense, stOverspend, monthStart, dateKey, d0]
    norm_num
  refine ⟨s2, hok, ?_⟩
  rw [hlt (by rw [hms]; norm_num), hms]
  simp [stOverspend]
  norm_num

/-- C10 counterexample: an absent (`null`) amount is not accepted and
written — the `NOT NULL` constraint on `budgets.amount` raises an uncaught
`IntegrityError` (HTTP 500) and no budget row is stored. -/
theorem add_budget_null_counterexample :
    add_budget (some 1) (Value.str "Food") Value.null d0 emptyState = Except.error ApiError.dbError := rfl

/-- C10 (amended): `add_budget` performs no input validation — any non-null
category and any non-null amount, including a negative number or a
non-numeric string, is accepted without a Validation error and written to
the `(user, category, current month)` budget row; but a null (absent)
category or amount violates the schema's `NOT NULL` constraint, producing
a database error rather than a write. -/
theorem add_budget_no_validation (uid : Nat) (c a : Value) (now : Date) (s : State) :
    (c ≠ Value.null → a ≠ Value.null → ∃ s1,
      add_budget (some uid) c a now s = Except.ok s1 ∧
      budgetRows uid c (monthKey now) s1 = [⟨uid, c, a, monthKey now⟩] ∧
      s1.income = s.income ∧ s1.expenses = s.expenses ∧ s1.goals = s.goals ∧
      s1.notifications = s.notifications) ∧
    ((c = Value.null ∨ a = Value.null) →
      add_budget (some uid) c a now s = Except.error ApiError.dbError) := by
  constructor
  · intro hc ha
    rw [add_budget_ok uid c a hc ha now s]
    refine ⟨_, rfl, ?_, rfl, rfl, rfl, rfl⟩
    exact upsert_filter _ _ _ (by simp [budgetKeyB, sqlEqB_self hc])
  · intro h
    simp [add_budget, check_session, h]

/-- C10 witness: a negative amount for `Food` is accepted and stored
unvalidated. -/
theorem add_budget_no_validation_witness :
    ∃ s1, add_budget (some 1) (Value.str "Food") (Value.num (-5)) d0 emptyState = Except.ok s1 ∧
      budgetRows 1 (Value.str "Food") (monthKey d0) s1 = [⟨1, Value.str "Food", Value.num (-5), monthKey d0⟩] := by
  obtain ⟨hok, _⟩ := add_budget_no_validation 1 (Value.str "Food") (Value.num (-5)) d0 emptyState
  obtain ⟨s1, h1, h2, _⟩ := hok (by simp) (by simp)
  exact ⟨s1, h1, h2⟩

set_option maxRecDepth 40000 in
/-- C2 counterexample: on 2026-10-12 the trailing six calendar months are
2026-05 .. 2026-10 (`monthKey` 24317 .. 24322 = `monthKey d0`), yet an
expense dated 2026-04-20 (`monthKey` 24316, outside that window) appears
in the trend output: the window really starts at the first of the month of
`now − 180 days`, here 2026-04-01, which is a seventh month. -/
theorem trend_window_counterexample :
    (generate_trend_analysis 1 d0 stApril).labels = [24316] ∧
    monthKey d0 = 24322 ∧ 24316 < 24322 - 5 := by
  refine ⟨by decide, by decide, by norm_num⟩

/-- C2 (amended): for every user the trend output pairs each month key
with the sum of the user's expense amounts in that month, keys are strictly
ascending, months without matching expenses are omitted (a key appears
exactly when the user has an expense in it within the window), and every
emitted key lies between the month of `now − 180 days` — the trailing six
or seven calendar months, depending on the date — and the current month. -/
theorem generate_trend_analysis_spec (uid : Nat) (now : Date) (s : State)
    (hnow : now.Valid)
    (hts : ∀ e ∈ s.expenses, e.timestamp.Valid ∧ dateKey e.timestamp ≤ dateKey now) :
    List.Sorted (fun a b => a < b) (generate_trend_analysis uid now s).labels ∧
    (∀ k, k ∈ (generate_trend_analysis uid now s).labels ↔
      ∃ e ∈ s.expenses, e.user_id = uid ∧ dateKey (trendWindowStart now) ≤ dateKey e.timestamp ∧ monthKey e.timestamp = k) ∧
    (∀ p ∈ trendPairs uid now s,
      p.2 = (((trendExpenses uid now s).filter (fun e => monthKey e.timestamp = p.1)).map (fun e => e.amount)).sum) ∧
    (∀ k ∈ (generate_trend_analysis uid now s).labels,
      monthKey (trendWindowStart now) ≤ k ∧ k ≤ monthKey now) ∧
    (generate_trend_analysis uid now s).labels = (trendPairs uid now s).map Prod.fst ∧
    (generate_trend_analysis uid now s).expenses = (trendPairs uid now s).map Prod.snd := by
  have hlabels : (generate_trend_analysis uid now s).labels = trendKeys uid now s := by
    show (trendPairs uid now s).map Prod.fst = trendKeys uid now s
    unfold trendPairs
    rw [List.map_map]
    exact List.map_id _
  have hmem : ∀ k, k ∈ trendKeys uid now s ↔
      ∃ e ∈ trendExpenses uid now s, monthKey e.timestamp = k := by
    intro k
    unfold trendKeys
    rw [(List.perm_insertionSort _ _).mem_iff, List.mem_dedup, List.mem_map]
  have hexp : ∀ e, e ∈ trendExpenses uid now s ↔
      e ∈ s.expenses ∧ e.user_id = uid ∧ dateKey (trendWindowStart now) ≤ dateKey e.timestamp := by
    intro e
    simp [trendExpenses, List.mem_filter, and_assoc]
  refine ⟨?_, ?_, ?_, ?_, rfl, rfl⟩
  · rw [hlabels]
    have hsorted : List.Sorted (fun a b : Nat => a ≤ b) (trendKeys uid now s) :=
      List.sorted_insertionSort _ _
    have hnodup : (trendKeys uid now s).Nodup :=
      (List.perm_insertionSort _ _).nodup_iff.mpr (List.nodup_dedup _)
    exact List.Sorted.lt_of_le hsorted hnodup
  · intro k
    rw [hlabels, hmem k]
    constructor
    · rintro ⟨e, he, hk⟩
      obtain ⟨h1, h2, h3⟩ := (hexp e).mp he
      exact ⟨e, h1, h2, h3, hk⟩
    · rintro ⟨e, h1, h2, h3, hk⟩
      exact ⟨e, (hexp e).mpr ⟨h1, h2, h3⟩, hk⟩
  · intro p hp
    unfold trendPairs at hp
    obtain ⟨k, _, rfl⟩ := List.mem_map.mp hp
    rfl
  · intro k hk
    rw [hlabels] at hk
    obtain ⟨e, he, hk⟩ := (hmem k).mp hk
    obtain ⟨h1, _, h3⟩ := (hexp e).mp he
    obtain ⟨hvalid, hle⟩ := hts e h1
    have hwvalid : (trendWindowStart now).Valid :=
      monthStart_valid (subDays_valid hnow 180)
    subst hk
    exact ⟨monthKey_mono hwvalid hvalid h3, monthKey_mono hvalid hnow hle⟩

set_option maxRecDepth 40000 in
/-- C2 witness: with expenses in exactly two months of the window the trend
output is exactly those two keys, ascending. -/
theorem generate_trend_analysis_spec_witness :
    List.Sorted (fun a b : Nat => a < b) (generate_trend_analysis 1 d0 stTwoMonths).labels ∧
    (generate_trend_analysis 1 d0 stTwoMonths).labels = [24317, 24322] := by
  have h := generate_trend_analysis_spec 1 d0 stTwoMonths (by decide) (by decide)
  exact ⟨h.1, by decide⟩

end BudgetApp
